import Mathlib

/-!
Verification development for the csv-to-parquet lambda
(src/lambda-functions/csv-to-parquet-export/main.py).

The Python source is shallowly embedded: strings are Lean `String`
(manipulated through their `List Char` data), DataFrames are ordered
lists of named, typed columns, S3 buckets are lists of object keys, and
the handler is a function producing the ordered list of external effects
it issues together with its outcome.  Fallible code returns `Except`.
-/

set_option maxRecDepth 4000

/-! ## Basic string helpers (Python `str` operations restricted to the
character set this pipeline manipulates) -/

/-- Characters stripped by Python `str.strip()` (the whitespace characters
relevant to this pipeline: ASCII whitespace plus the non-breaking space;
other exotic Unicode whitespace is outside the model). -/
def isPyWs (c : Char) : Bool :=
  c = ' ' || c = '\t' || c = '\n' || c = '\r' || c = '\x0b' || c = '\x0c' || c = '\u00A0'

/-- Python `str.strip()` on a character list. -/
def pyStripL (l : List Char) : List Char :=
  ((l.dropWhile isPyWs).reverse.dropWhile isPyWs).reverse

/-- Python `str.strip()`. -/
def pyStrip (s : String) : String := ⟨pyStripL s.data⟩

/-- Python `str.lower()` (ASCII case folding; every string this is applied
to after validation is ASCII). -/
def toLowerStr (s : String) : String := ⟨s.data.map Char.toLower⟩

/-- Segment of a path after the last slash: `os.path.basename`. -/
def basenameStr (s : String) : String :=
  ⟨(s.data.reverse.takeWhile (fun c => decide (c ≠ '/'))).reverse⟩

/-- Index of the last dot of a character list, if any. -/
def lastDotIdx : List Char → Option Nat
  | [] => none
  | c :: cs =>
    match lastDotIdx cs with
    | some i => some (i + 1)
    | none => if c = '.' then some 0 else none

/-- Python `os.path.splitext` on a slash-free filename: split at the last
dot, except that a filename whose every character before that dot is a dot
(for example `".csv"`) has no extension. -/
def splitextL (l : List Char) : List Char × List Char :=
  match lastDotIdx l with
  | none => (l, [])
  | some i =>
    if (l.take i).all (fun c => decide (c = '.')) then (l, [])
    else (l.take i, l.drop i)

/-- `os.path.splitext` on strings. -/
def splitextStr (s : String) : String × String :=
  ((⟨(splitextL s.data).1⟩ : String), (⟨(splitextL s.data).2⟩ : String))

/-- Python `name.split("_", 1)[0]`: the part before the first underscore
(the whole string when no underscore occurs). -/
def beforeUnderscore (s : String) : String :=
  ⟨s.data.takeWhile (fun c => decide (c ≠ '_'))⟩

/-- Full match of the anchored pattern of letters, digits and underscores
starting with a letter (the character classes are the ASCII ranges the
pattern spells out). -/
def plainNameMatch (s : String) : Bool :=
  match s.data with
  | [] => false
  | c :: cs => c.isAlpha && cs.all (fun d => d.isAlphanum || d = '_')

/-- `re.match` of the anchored name pattern, with Python semantics of the
dollar anchor: it also matches just before one newline at the end of the
string, so a valid name followed by a single trailing newline is accepted. -/
def matchesNamePattern (s : String) : Bool :=
  plainNameMatch s ||
    (match s.data.getLast? with
     | some '\n' => plainNameMatch ⟨s.data.dropLast⟩
     | _ => false)

/-- `base.lower()[:255]` truncation. -/
def strTake255 (s : String) : String := ⟨s.data.take 255⟩

/-- Errors raised by the pipeline (`ValueError`s in the source, by site). -/
inductive PipeErr where
  | invalidExt (ext : String)
  | emptyBase (filename : String)
  | invalidName (base : String)
  | badLoadMode
  deriving DecidableEq, Repr

deriving instance DecidableEq for Except

/-- Extension of the key as computed by `derive_name_from_key`. -/
def deriveExt (key : String) : String := (splitextStr (basenameStr key)).2

/-- Extension-stripped filename of the key. -/
def deriveStem (key : String) : String := (splitextStr (basenameStr key)).1

/-- Candidate table name: part of the stem before the first underscore. -/
def deriveBase (key : String) : String := beforeUnderscore (deriveStem key)

/-- `derive_name_from_key` from the source: basename, extension check,
split at the first underscore, emptiness check, pattern check, then
lowercase and truncate to 255 characters. -/
def derive_name_from_key (key : String) : Except PipeErr String :=
  if toLowerStr (deriveExt key) ≠ ".csv" then
    Except.error (PipeErr.invalidExt (deriveExt key))
  else if deriveBase key = "" then
    Except.error (PipeErr.emptyBase (basenameStr key))
  else if matchesNamePattern (deriveBase key) then
    Except.ok (strTake255 (toLowerStr (deriveBase key)))
  else
    Except.error (PipeErr.invalidName (deriveBase key))

/-! ## `_delete_prefix`: paginated listing plus batched bulk deletes -/

/-- Boolean test that the first string is an initial segment of the second
(the `Prefix=` filtering done by the S3 listing). -/
def isPfxL : List Char → List Char → Bool
  | [], _ => true
  | _ :: _, [] => false
  | a :: as, b :: bs => decide (a = b) && isPfxL as bs

/-- Key `k` starts with `p`. -/
def strHasPfxB (p k : String) : Bool := isPfxL p.data k.data

/-- The accumulation loop of `_delete_prefix`: keys are appended to the
pending batch, which is flushed as a bulk-delete request exactly when it
reaches 1000 keys; a final non-empty remainder is flushed after the loop. -/
def deleteAcc : List String → List String → List (List String)
  | acc, [] => if acc.isEmpty then [] else [acc]
  | acc, k :: ks =>
    if (acc ++ [k]).length = 1000 then (acc ++ [k]) :: deleteAcc [] ks
    else deleteAcc (acc ++ [k]) ks

/-- The bulk-delete requests `_delete_prefix` issues against a bucket
holding `keys`: the listing returns exactly the keys under the given
initial segment, and the loop batches them. -/
def deleteBatches (keys : List String) (p : String) : List (List String) :=
  deleteAcc [] (keys.filter (fun k => strHasPfxB p k))

/-- Effect of one `delete_objects` request on the bucket contents. -/
def deleteObjectsBatch (keys : List String) (b : List String) : List String :=
  keys.filter (fun k => decide (¬ k ∈ b))

/-- Bucket contents after the sequence of bulk-delete requests. -/
def runDeletes (keys : List String) (batches : List (List String)) : List String :=
  batches.foldl deleteObjectsBatch keys

/-! ## DataFrame model

A decoded table is an ordered list of named columns.  A column carries the
pandas dtype the pipeline distinguishes: `obj` is a generic-text (object)
column as produced by decoding, the remaining constructors are the
Athena-friendly dtypes `_stabilize_dtypes` assigns.  Floats are modelled
as exact decimals (mantissa times a power of ten), timestamps as a packed
numeral. -/

/-- Exact decimal number: the value is `num / 10 ^ scale`.  This models
the floating-point values `pd.to_numeric` produces for the decimal
literals this pipeline parses. -/
structure PyNum where
  num : Int
  scale : Nat
  deriving DecidableEq, Repr

/-- Column payload with its pandas dtype. -/
inductive ColData where
  | obj (cells : List (Option String))
  | str (cells : List (Option String))
  | boolCol (cells : List (Option Bool))
  | intCol (cells : List (Option Int))
  | floatCol (cells : List (Option PyNum))
  | dtCol (cells : List (Option Nat))
  deriving DecidableEq, Repr

/-- An ordered sequence of named columns. -/
structure DataFrame where
  cols : List (String × ColData)
  deriving DecidableEq, Repr

/-- Number of cells of a column. -/
def colLen : ColData → Nat
  | ColData.obj cs => cs.length
  | ColData.str cs => cs.length
  | ColData.boolCol cs => cs.length
  | ColData.intCol cs => cs.length
  | ColData.floatCol cs => cs.length
  | ColData.dtCol cs => cs.length

/-- `len(df)`: the row count, read off the first column (0 for an empty
frame, whose row count the model cannot represent otherwise). -/
def nRows (df : DataFrame) : Nat :=
  match df.cols with
  | [] => 0
  | c :: _ => colLen c.2

/-! ## `_clean_nbsp_and_strip` -/

/-- Replace non-breaking spaces by ordinary spaces, then strip: applied to
every header and to every string cell of an object column. -/
def cleanCellStr (s : String) : String :=
  pyStrip ⟨s.data.map (fun c => if c = '\u00A0' then ' ' else c)⟩

/-- `_clean_nbsp_and_strip`: normalizes headers and the cells of
object-dtype columns; other columns are untouched. -/
def cleanDf (df : DataFrame) : DataFrame :=
  ⟨df.cols.map (fun nc =>
    (cleanCellStr nc.1,
     match nc.2 with
     | ColData.obj cs => ColData.obj (cs.map (Option.map cleanCellStr))
     | d => d))⟩

/-! ## `_deduplicate_columns` -/

/-- One character of `re.sub` with the class of characters outside ASCII
letters, digits and underscore: every such character is replaced by one
underscore (each occurrence separately, not per run). -/
def subChar (c : Char) : Char :=
  if c.isAlphanum || c = '_' then c else '_'

/-- Strip leading and trailing underscores, Python `str.strip("_")`. -/
def stripUnders (l : List Char) : List Char :=
  ((l.dropWhile (fun c => decide (c = '_'))).reverse.dropWhile
    (fun c => decide (c = '_'))).reverse

/-- Header sanitization of `_deduplicate_columns`:
`re.sub(r"[^a-zA-Z0-9_]", "_", col).lower().strip("_")`. -/
def sanitizeBase (s : String) : String :=
  ⟨stripUnders ((s.data.map subChar).map Char.toLower)⟩

/-- Decimal digits of a natural number (fuel-structured so that it
evaluates by kernel reduction). -/
def natDigits : Nat → Nat → List Char
  | 0, _ => []
  | fuel + 1, n =>
    if n < 10 then [Char.ofNat (48 + n)]
    else natDigits fuel (n / 10) ++ [Char.ofNat (48 + n % 10)]

/-- Decimal rendering of a natural number, Python `f"{n}"`. -/
def natToStr (n : Nat) : String := ⟨natDigits (n + 1) n⟩

/-- Lookup in the association list modelling the Python `seen` dict. -/
def seenLookup : List (String × Nat) → String → Option Nat
  | [], _ => none
  | (k, v) :: t, q => if k = q then some v else seenLookup t q

/-- Increment the counter of an existing key of the `seen` dict. -/
def seenBump : List (String × Nat) → String → List (String × Nat)
  | [], _ => []
  | (k, v) :: t, q => if k = q then (k, v + 1) :: t else seenBump t q

/-- The loop of `_deduplicate_columns`: the first occurrence of a
sanitized base keeps the bare name, each later occurrence of the same
base gets the suffix `_1`, `_2`, ... in encounter order. -/
def dedupGo : List (String × Nat) → List String → List String
  | _, [] => []
  | seen, h :: t =>
    match seenLookup seen (sanitizeBase h) with
    | some n =>
      (sanitizeBase h ++ "_" ++ natToStr (n + 1)) ::
        dedupGo (seenBump seen (sanitizeBase h)) t
    | none => sanitizeBase h :: dedupGo ((sanitizeBase h, 0) :: seen) t

/-- New column names assigned by `_deduplicate_columns`. -/
def dedupNames (names : List String) : List String := dedupGo [] names

/-- `_deduplicate_columns`: renames the columns, keeping their data. -/
def dedupDf (df : DataFrame) : DataFrame :=
  ⟨(dedupNames (df.cols.map (fun nc => nc.1))).zip (df.cols.map (fun nc => nc.2))⟩

/-! ## Numeric parsing (`pd.to_numeric` on a single string)

The parser accepts the decimal literals `pd.to_numeric` accepts for this
pipeline: optional sign, digits with an optional decimal point, optional
exponent, surrounding whitespace tolerated.  The result is the exact
decimal value. -/

/-- Value of a digit list. -/
def digitsToNat (l : List Char) : Nat :=
  l.foldl (fun a c => a * 10 + (c.toNat - 48)) 0

/-- Parse the optional exponent tail: empty means exponent 0. -/
def parseExpTail : List Char → Option Int
  | [] => some 0
  | c :: r =>
    if c = 'e' || c = 'E' then
      match r with
      | '+' :: d =>
        if !d.isEmpty && d.all Char.isDigit then some ((digitsToNat d : Int)) else none
      | '-' :: d =>
        if !d.isEmpty && d.all Char.isDigit then some (-(digitsToNat d : Int)) else none
      | d =>
        if !d.isEmpty && d.all Char.isDigit then some ((digitsToNat d : Int)) else none
    else none

/-- Apply a decimal exponent to a mantissa with `sc` fractional digits. -/
def applyExp (m : Int) (sc : Nat) (e : Int) : PyNum :=
  if 0 ≤ e then ⟨m * (10 : Int) ^ e.toNat, sc⟩ else ⟨m, sc + (-e).toNat⟩

/-- Parse integer part, optional fractional part; returns mantissa value,
number of fractional digits, and the unconsumed remainder. -/
def parseMantissa (l : List Char) : Option (Nat × Nat × List Char) :=
  let ip := l.takeWhile Char.isDigit
  let r1 := l.drop ip.length
  match r1 with
  | '.' :: r2 =>
    let fp := r2.takeWhile Char.isDigit
    if ip.isEmpty && fp.isEmpty then none
    else some (digitsToNat (ip ++ fp), fp.length, r2.drop fp.length)
  | _ => if ip.isEmpty then none else some (digitsToNat ip, 0, r1)

/-- Unsigned numeric literal. -/
def parseUnsignedNum (l : List Char) : Option PyNum :=
  match parseMantissa l with
  | none => none
  | some (m, sc, rest) =>
    match parseExpTail rest with
    | none => none
    | some e => some (applyExp (m : Int) sc e)

/-- Signed numeric literal. -/
def toNumericL : List Char → Option PyNum
  | '+' :: r => parseUnsignedNum r
  | '-' :: r => (parseUnsignedNum r).map (fun p => ⟨-p.num, p.scale⟩)
  | r => parseUnsignedNum r

/-- `pd.to_numeric(s, errors="coerce")` on one string. -/
def toNumeric (s : String) : Option PyNum := toNumericL (pyStripL s.data)

/-- The parsed value is a whole number (`x % 1 == 0`). -/
def pyWhole (p : PyNum) : Bool := decide (p.num % (10 : Int) ^ p.scale = 0)

/-- Exact integer value of a whole `PyNum` (`astype("Int64")`). -/
def pynumToInt (p : PyNum) : Int := p.num / (10 : Int) ^ p.scale

/-- `s.str.replace(",", "")`: drop every comma. -/
def stripCommas (s : String) : String :=
  ⟨s.data.filter (fun c => decide (c ≠ ','))⟩

/-! ## Datetime parsing (`pd.to_datetime` on a single string)

Model of the pandas datetime parsing this pipeline exercises, per
element, two-layered as in pandas: the number guard (a string whose full
numeric value is below 1000 never looks like a datetime) followed by
format recognition.  The recognized fragment: bare four-digit years,
year-first digit stamps `YYYYMMDD`, `YYYYMMDDHHMM` and `YYYYMMDDHHMMSS`,
and delimited dates with a uniform separator `-`, `/` or `.` whose year
field has four digits (year-first read as year-month-day, year-last read
month-first with the day swap the inferring parser applies when the
first field exceeds 12; a month-year pair for `-` and `/`), with an
optional space- or T-separated `HH:MM[:SS[.frac]]` time; dates are
validated against the real Gregorian calendar and against the exact
range of nanosecond-precision timestamps at one-second resolution.
The fragment under-approximates the pandas parser: month-name, quarter
and other natural-language forms, two-digit-year forms (whose century is
resolved relative to the current date), timezone designators and
comma-separated token dates are outside it.  Its results are only ever
used cell by cell; no theorem in this development relies on the fragment
being complete, and the datetime hypothesis of the numeric-promotion
theorem is stated through the number guard alone, which is exact. -/

/-- Strings pandas never treats as datetimes despite not being numeric. -/
def notDatelike : List String := ["a", "A", "m", "M", "p", "P", "t", "T"]

/-- The pandas number guard on a stripped character list: a string whose
full numeric value is below 1000 does not look like a datetime; a
leading zero always looks like one. -/
def looksLikeDtL (l : List Char) : Bool :=
  match l with
  | [] => true
  | c :: _ =>
    if c = '0' then true
    else if decide ((⟨l⟩ : String) ∈ notDatelike) then false
    else
      match toNumericL l with
      | some p => decide (1000 * (10 : Int) ^ p.scale ≤ p.num)
      | none => true

/-- Packed timestamp value `YYYYMMDDHHMMSS` as a numeral. -/
def packDate (y mo da hh mi ss : Nat) : Nat :=
  ((((y * 100 + mo) * 100 + da) * 100 + hh) * 100 + mi) * 100 + ss

/-- Gregorian leap year. -/
def isLeap (y : Nat) : Bool := (y % 4 = 0 && y % 100 ≠ 0) || y % 400 = 0

/-- Days in a month. -/
def monthLen (y mo : Nat) : Nat :=
  if mo = 2 then (if isLeap y then 29 else 28)
  else if mo = 4 || mo = 6 || mo = 9 || mo = 11 then 30 else 31

/-- First whole second of the nanosecond-timestamp range
(`Timestamp.min` is 1677-09-21 00:12:43.145224193). -/
def tsMin : Nat := packDate 1677 9 21 0 12 44

/-- Last whole second of the nanosecond-timestamp range
(`Timestamp.max` is 2262-04-11 23:47:16.854775807). -/
def tsMax : Nat := packDate 2262 4 11 23 47 16

/-- Validate a date-time against the calendar and the representable
range, and pack it; out-of-range dates are the ones pandas coerces to
null as out-of-bounds. -/
def mkTimestamp (y mo da hh mi ss : Nat) : Option Nat :=
  if (1 ≤ mo && mo ≤ 12) && (1 ≤ da && da ≤ monthLen y mo)
      && (hh ≤ 23 && mi ≤ 59 && ss ≤ 59) then
    if tsMin ≤ packDate y mo da hh mi ss && packDate y mo da hh mi ss ≤ tsMax then
      some (packDate y mo da hh mi ss)
    else none
  else none

/-- Leading digit run and the remainder. -/
def takeDigits (l : List Char) : List Char × List Char :=
  (l.takeWhile Char.isDigit, l.dropWhile Char.isDigit)

/-- Optional time of day after the date part: nothing, or a space- or
T-separated `HH:MM`, `HH:MM:SS` or `HH:MM:SS.frac` (the fraction is
validated and dropped: the model is one-second resolution). -/
def parseTimeTail (l : List Char) : Option (Nat × Nat × Nat) :=
  match l with
  | [] => some (0, 0, 0)
  | sep :: rest =>
    if sep = ' ' || sep = 'T' then
      let h := takeDigits rest
      match h.2 with
      | ':' :: r2 =>
        let mi := takeDigits r2
        if (1 ≤ h.1.length && h.1.length ≤ 2)
            && (1 ≤ mi.1.length && mi.1.length ≤ 2) then
          match mi.2 with
          | [] => some (digitsToNat h.1, digitsToNat mi.1, 0)
          | ':' :: r4 =>
            let ss := takeDigits r4
            if 1 ≤ ss.1.length && ss.1.length ≤ 2 then
              match ss.2 with
              | [] => some (digitsToNat h.1, digitsToNat mi.1, digitsToNat ss.1)
              | '.' :: r6 =>
                if !r6.isEmpty && r6.all Char.isDigit then
                  some (digitsToNat h.1, digitsToNat mi.1, digitsToNat ss.1)
                else none
              | _ => none
            else none
          | _ => none
        else none
      | _ => none
    else none

/-- All-digit date stamps, as pandas reads them: a bare four-digit year
is January 1 of that year, and eight-, twelve- and fourteen-digit stamps
are year-first `YYYYMMDD[HHMM[SS]]`.  Other digit lengths do not parse
(two-digit-year `YYMMDD` stamps are outside the model: their century is
resolved relative to the current date). -/
def parseDigitDate (l : List Char) : Option Nat :=
  if l.length = 4 then mkTimestamp (digitsToNat l) 1 1 0 0 0
  else if l.length = 8 then
    mkTimestamp (digitsToNat (l.take 4)) (digitsToNat ((l.drop 4).take 2))
      (digitsToNat ((l.drop 6).take 2)) 0 0 0
  else if l.length = 12 then
    mkTimestamp (digitsToNat (l.take 4)) (digitsToNat ((l.drop 4).take 2))
      (digitsToNat ((l.drop 6).take 2)) (digitsToNat ((l.drop 8).take 2))
      (digitsToNat ((l.drop 10).take 2)) 0
  else if l.length = 14 then
    mkTimestamp (digitsToNat (l.take 4)) (digitsToNat ((l.drop 4).take 2))
      (digitsToNat ((l.drop 6).take 2)) (digitsToNat ((l.drop 8).take 2))
      (digitsToNat ((l.drop 10).take 2)) (digitsToNat (l.drop 12))
  else none

/-- Delimited dates with a uniform separator and a four-digit year
field.  Three fields: year first is year-month-day; year last is read
month-first, with the inferring parser swap to day-first when the first
field exceeds 12.  Two fields (separator `-` or `/` only, since a
two-field dot form is a decimal number): a four-digit year with a month,
either order, a 13..31 first field being a day of the default month.
An optional time tail follows. -/
def parseDelimited (l : List Char) : Option Nat :=
  let f1 := takeDigits l
  if f1.1.isEmpty then none
  else
    match f1.2 with
    | sep1 :: rest1 =>
      if sep1 = '-' || sep1 = '/' || sep1 = '.' then
        let f2 := takeDigits rest1
        if f2.1.isEmpty then none
        else
          match f2.2 with
          | sep2 :: rest2 =>
            if sep2 = sep1 then
              let f3 := takeDigits rest2
              if f3.1.isEmpty then none
              else
                match parseTimeTail f3.2 with
                | none => none
                | some t =>
                  if f1.1.length = 4 && f2.1.length ≤ 2 && f3.1.length ≤ 2 then
                    mkTimestamp (digitsToNat f1.1) (digitsToNat f2.1)
                      (digitsToNat f3.1) t.1 t.2.1 t.2.2
                  else if f3.1.length = 4 && f1.1.length ≤ 2 && f2.1.length ≤ 2 then
                    if digitsToNat f1.1 ≤ 12 then
                      mkTimestamp (digitsToNat f3.1) (digitsToNat f1.1)
                        (digitsToNat f2.1) t.1 t.2.1 t.2.2
                    else
                      mkTimestamp (digitsToNat f3.1) (digitsToNat f2.1)
                        (digitsToNat f1.1) t.1 t.2.1 t.2.2
                  else none
            else
              match parseTimeTail (sep2 :: rest2) with
              | none => none
              | some t =>
                if sep1 = '.' then none
                else if f1.1.length = 4 && f2.1.length ≤ 2 then
                  mkTimestamp (digitsToNat f1.1) (digitsToNat f2.1) 1 t.1 t.2.1 t.2.2
                else if f2.1.length = 4 && f1.1.length ≤ 2 then
                  if digitsToNat f1.1 ≤ 12 then
                    mkTimestamp (digitsToNat f2.1) (digitsToNat f1.1) 1 t.1 t.2.1 t.2.2
                  else
                    mkTimestamp (digitsToNat f2.1) 1 (digitsToNat f1.1) t.1 t.2.1 t.2.2
                else none
          | [] =>
            if sep1 = '.' then none
            else if f1.1.length = 4 && f2.1.length ≤ 2 then
              mkTimestamp (digitsToNat f1.1) (digitsToNat f2.1) 1 0 0 0
            else if f2.1.length = 4 && f1.1.length ≤ 2 then
              if digitsToNat f1.1 ≤ 12 then
                mkTimestamp (digitsToNat f2.1) (digitsToNat f1.1) 1 0 0 0
              else
                mkTimestamp (digitsToNat f2.1) 1 (digitsToNat f1.1) 0 0 0
            else none
      else none
    | [] => none

/-- The recognized date fragment on a stripped character list. -/
def parseDateL (l : List Char) : Option Nat :=
  if !l.isEmpty && l.all Char.isDigit then parseDigitDate l
  else parseDelimited l

/-- `pd.to_datetime(s, errors="coerce")` on one string: the number guard
first, then the recognized date fragment. -/
def pdToDatetime (s : String) : Option Nat :=
  if looksLikeDtL (pyStripL s.data) then parseDateL (pyStripL s.data) else none

/-! ## `_stabilize_dtypes` -/

/-- The truthy boolean tokens. -/
def truthyL : List String := ["true", "t", "yes", "y", "1"]

/-- The falsy boolean tokens. -/
def falsyL : List String := ["false", "f", "no", "n", "0"]

/-- Lowercased, whitespace-trimmed view of a cell. -/
def lowTrim (s : String) : String := toLowerStr (pyStrip s)

/-- Cell map of the boolean branch: truthy tokens to true, falsy tokens
to false, anything else to null. -/
def boolTokenMap (s : String) : Option Bool :=
  if lowTrim s ∈ truthyL then some true
  else if lowTrim s ∈ falsyL then some false
  else none

/-- `col.dropna().astype(str).str.strip()`: the trimmed non-null sample. -/
def sampleOf (cells : List (Option String)) : List String :=
  (cells.filterMap id).map pyStrip

/-- `sample.str.lower()`. -/
def lowerOf (cells : List (Option String)) : List String :=
  (sampleOf cells).map toLowerStr

/-- Boolean-promotion guard: the distinct lowercased trimmed values are
all boolean tokens and at most 2 of them are distinct. -/
def boolGuard (cells : List (Option String)) : Bool :=
  ((lowerOf cells).dedup).all (fun v => decide (v ∈ truthyL) || decide (v ∈ falsyL))
    && decide ((lowerOf cells).dedup.length ≤ 2)

/-- Datetime-promotion guard: at least 0.9 of the sample parses as a
datetime (`dt.notna().mean() >= 0.9`; the mean of an empty sample is NaN
and compares false). -/
def dtGuard (cells : List (Option String)) : Bool :=
  decide (0 < (sampleOf cells).length)
    && decide (9 * (sampleOf cells).length
        ≤ 10 * ((sampleOf cells).filterMap pdToDatetime).length)

/-- Comma-stripped numeric parses of the sample. -/
def numsOf (cells : List (Option String)) : List (Option PyNum) :=
  (sampleOf cells).map (fun s => toNumeric (stripCommas s))

/-- Numeric-promotion guard: at least 0.9 of the comma-stripped sample
parses as a number. -/
def numGuard (cells : List (Option String)) : Bool :=
  decide (0 < (sampleOf cells).length)
    && decide (9 * (sampleOf cells).length ≤ 10 * ((numsOf cells).filterMap id).length)

/-- `(num.dropna() % 1 == 0).all()`: every parsed sample value is whole. -/
def allWhole (cells : List (Option String)) : Bool :=
  ((numsOf cells).filterMap id).all pyWhole

/-- `_stabilize_dtypes` on one object column, following the source order
of checks: all-null to string dtype, boolean tokens, datetimes, numbers
(integer when every parsed value is whole, float otherwise), fallback to
string dtype.  Individual cells failing the chosen parse become null. -/
def stabilizeCol (cells : List (Option String)) : ColData :=
  if (cells.filterMap id).isEmpty then ColData.str cells
  else if boolGuard cells then
    ColData.boolCol (cells.map (fun c => c.bind boolTokenMap))
  else if dtGuard cells then
    ColData.dtCol (cells.map (fun c => c.bind pdToDatetime))
  else if numGuard cells then
    if allWhole cells then
      ColData.intCol
        (cells.map (fun c => c.bind (fun s => (toNumeric (stripCommas s)).map pynumToInt)))
    else
      ColData.floatCol
        (cells.map (fun c => c.bind (fun s => toNumeric (stripCommas s))))
  else ColData.str cells

/-- Action of `_stabilize_dtypes` on one column: only object-dtype
columns are touched (`select_dtypes(include=["object"])`). -/
def stabCol : ColData → ColData
  | ColData.obj cs => stabilizeCol cs
  | d => d

/-- `_stabilize_dtypes` on a frame. -/
def stabilize (df : DataFrame) : DataFrame :=
  ⟨df.cols.map (fun nc => (nc.1, stabCol nc.2))⟩

/-! ## The handler -/

/-- `df["extraction_timestamp"] = ts`: replaces the column when the name
exists, appends it otherwise, broadcasting the scalar over the rows. -/
def addPartitionCol (df : DataFrame) (ts : String) : DataFrame :=
  if df.cols.any (fun nc => decide (nc.1 = "extraction_timestamp")) then
    ⟨df.cols.map (fun nc =>
      if nc.1 = "extraction_timestamp"
      then (nc.1, ColData.str (List.replicate (nRows df) (some ts)))
      else nc)⟩
  else
    ⟨df.cols ++ [("extraction_timestamp", ColData.str (List.replicate (nRows df) (some ts)))]⟩

/-- The pure table transform the handler applies to the decoded frame,
in source order: clean, de-duplicate, stabilize, add the partition
column.  There is no configuration input: the source guards none of
these steps behind a toggle. -/
def pipelineTransform (df : DataFrame) (ts : String) : DataFrame :=
  addPartitionCol (stabilize (dedupDf (cleanDf df))) ts

/-- Process-wide configuration read from the environment. -/
structure Env where
  glueDatabase : String
  parquetPfx : String
  loadModeDefault : String
  deriving Repr

/-- The invocation event fields the handler reads. -/
structure Event where
  csvUploadBucket : String
  csvUploadKey : String
  outputBucket : String
  loadMode : Option String
  extractionTimestamp : String
  deriving Repr

/-- External effects the handler issues, in order. -/
inductive Effect where
  | ensureDatabase (db : String)
  | deleteObjects (bucket : String) (keys : List String)
  | deleteTableIfExists (db : String) (table : String)
  | readCsv (path : String)
  | writeParquet (path : String) (db : String) (table : String)
  deriving DecidableEq, Repr

/-- `event.get("load_mode", LOAD_MODE).lower()` where the module-level
`LOAD_MODE` is itself the lowercased environment value. -/
def effLoadMode (env : Env) (ev : Event) : String :=
  toLowerStr (ev.loadMode.getD (toLowerStr env.loadModeDefault))

/-- Python `str.strip("/")`. -/
def stripSlashes (s : String) : String :=
  ⟨((s.data.dropWhile (fun c => decide (c = '/'))).reverse.dropWhile
    (fun c => decide (c = '/'))).reverse⟩

/-- `f"{PARQUET_PREFIX.strip('/')}/" if PARQUET_PREFIX else ""`. -/
def basePfx (env : Env) : String :=
  if env.parquetPfx = "" then "" else stripSlashes env.parquetPfx ++ "/"

/-- The storage area designated for a table. -/
def tablePfx (env : Env) (tn : String) : String := basePfx env ++ tn ++ "/"

/-- `s3://{csv_bucket}/{csv_key}`. -/
def inputPath (ev : Event) : String :=
  "s3://" ++ ev.csvUploadBucket ++ "/" ++ ev.csvUploadKey

/-- `s3://{out_bucket}/{table_prefix}`. -/
def datasetRoot (env : Env) (ev : Event) (tn : String) : String :=
  "s3://" ++ ev.outputBucket ++ "/" ++ tablePfx env tn

/-- The handler, as the ordered list of external effects it issues and
its outcome, given the keys currently stored in the output bucket.  The
source order is: derive the table name (pure, may raise), ensure the
Glue database, then branch on the load mode (overwrite reset, or a bad
mode raising, or nothing), then read, transform and write. -/
def handlerRun (env : Env) (ev : Event) (outKeys : List String) :
    List Effect × Except PipeErr Unit :=
  match derive_name_from_key ev.csvUploadKey with
  | Except.error e => ([], Except.error e)
  | Except.ok tn =>
    if effLoadMode env ev = "overwrite" then
      ([Effect.ensureDatabase env.glueDatabase]
        ++ (deleteBatches outKeys (tablePfx env tn)).map
            (Effect.deleteObjects ev.outputBucket)
        ++ [Effect.deleteTableIfExists env.glueDatabase tn,
            Effect.readCsv (inputPath ev),
            Effect.writeParquet (datasetRoot env ev tn) env.glueDatabase tn],
       Except.ok ())
    else if effLoadMode env ev ≠ "incremental" then
      ([Effect.ensureDatabase env.glueDatabase], Except.error PipeErr.badLoadMode)
    else
      ([Effect.ensureDatabase env.glueDatabase,
        Effect.readCsv (inputPath ev),
        Effect.writeParquet (datasetRoot env ev tn) env.glueDatabase tn],
       Except.ok ())

/-! ## Concrete inputs used by witnesses and counterexamples -/

/-- Environment with database `db`, no parquet root, incremental default. -/
def env0 : Env := ⟨"db", "", "incremental"⟩

/-- Event carrying the unrecognized load mode `append`. -/
def ev0 : Event := ⟨"b", "T.csv", "o", some "append", "ts"⟩

/-- Environment with database `gdb` and parquet root `data`. -/
def env1 : Env := ⟨"gdb", "data", "incremental"⟩

/-- Overwrite-mode event for the key `Sales_2024.csv`. -/
def ev1 : Event := ⟨"in", "Sales_2024.csv", "out", some "overwrite", "ts"⟩

/-- Output-bucket keys: two under the table area of `sales`, one not. -/
def keys1 : List String := ["data/sales/p1", "data/other/p3", "data/sales/p2"]

/-- Frame with three distinct raw headers: the second sanitizes to the
base of the first and is suffixed, colliding with the third raw header. -/
def c1df : DataFrame :=
  ⟨[("b", ColData.obj [some "x"]), ("b!", ColData.obj [some "y"]),
    ("b_1", ColData.obj [some "z"])]⟩

/-- Frame with one boolean-token text column. -/
def c2df : DataFrame := ⟨[("flag", ColData.obj [some "1", some "0"])]⟩

/-! ## Lemmas about the bulk-delete loop -/

theorem deleteAcc_flatten (ks : List String) :
    ∀ acc : List String, (deleteAcc acc ks).flatten = acc ++ ks := by
  induction ks with
  | nil =>
    intro acc
    cases acc <;> simp [deleteAcc, List.isEmpty]
  | cons k ks ih =>
    intro acc
    simp only [deleteAcc]
    by_cases h : (acc ++ [k]).length = 1000
    · rw [if_pos h]
      simp [ih]
    · rw [if_neg h]
      rw [ih]
      simp

theorem deleteAcc_sizes (ks : List String) :
    ∀ acc : List String, acc.length < 1000 →
      ∀ b ∈ deleteAcc acc ks, b.length ≤ 1000 := by
  induction ks with
  | nil =>
    intro acc hlt b hb
    cases acc with
    | nil => simp [deleteAcc] at hb
    | cons a t =>
      simp [deleteAcc, List.isEmpty] at hb
      subst hb
      exact Nat.le_of_lt hlt
  | cons k ks ih =>
    intro acc hlt b hb
    simp only [deleteAcc] at hb
    by_cases h : (acc ++ [k]).length = 1000
    · rw [if_pos h] at hb
      rcases List.mem_cons.mp hb with hb | hb
      · subst hb; omega
      · exact ih [] (by simp) b hb
    · rw [if_neg h] at hb
      have hlt2 : (acc ++ [k]).length < 1000 := by
        simp only [List.length_append, List.length_cons, List.length_nil] at h ⊢
        omega
      exact ih _ hlt2 b hb

theorem deleteAcc_ne_nil (ks : List String) :
    ∀ acc : List String, ∀ b ∈ deleteAcc acc ks, b ≠ [] := by
  induction ks with
  | nil =>
    intro acc b hb
    cases acc with
    | nil => simp [deleteAcc] at hb
    | cons a t =>
      simp [deleteAcc, List.isEmpty] at hb
      subst hb; simp
  | cons k ks ih =>
    intro acc b hb
    simp only [deleteAcc] at hb
    by_cases h : (acc ++ [k]).length = 1000
    · rw [if_pos h] at hb
      rcases List.mem_cons.mp hb with hb | hb
      · subst hb; simp
      · exact ih [] b hb
    · rw [if_neg h] at hb
      exact ih _ b hb

theorem mem_runDeletes (batches : List (List String)) :
    ∀ keys k, k ∈ runDeletes keys batches →
      k ∈ keys ∧ ∀ b ∈ batches, k ∉ b := by
  induction batches with
  | nil =>
    intro keys k hk
    exact ⟨hk, by simp⟩
  | cons b bs ih =>
    intro keys k hk
    obtain ⟨hmem, hrest⟩ := ih (deleteObjectsBatch keys b) k hk
    have hf := List.mem_filter.mp hmem
    refine ⟨hf.1, ?_⟩
    intro b2 hb2
    rcases List.mem_cons.mp hb2 with rfl | hb2
    · exact of_decide_eq_true hf.2
    · exact hrest b2 hb2

theorem runDeletes_clears (keys : List String) (p : String) :
    ∀ k ∈ runDeletes keys (deleteBatches keys p), strHasPfxB p k = false := by
  intro k hk
  obtain ⟨hmem, hnone⟩ := mem_runDeletes _ _ k hk
  by_contra hcon
  have hp : strHasPfxB p k = true := by
    cases hEq : strHasPfxB p k
    · exact absurd hEq hcon
    · rfl
  have hfil : k ∈ keys.filter (fun k2 => strHasPfxB p k2) :=
    List.mem_filter.mpr ⟨hmem, hp⟩
  have hflat : k ∈ (deleteBatches keys p).flatten := by
    rw [deleteBatches, deleteAcc_flatten]
    simpa using hfil
  obtain ⟨b, hb, hkb⟩ := List.mem_flatten.mp hflat
  exact hnone b hb hkb

/-- Claim C10: on a storage state with no key under the given storage
area, `_delete_prefix` issues no bulk-delete request at all, and in
general it never issues a request with an empty key list. -/
theorem c10_delete_noop (keys : List String) (p : String) :
    ((∀ k ∈ keys, strHasPfxB p k = false) → deleteBatches keys p = [])
    ∧ [] ∉ deleteBatches keys p := by
  constructor
  · intro h
    have hfil : keys.filter (fun k => strHasPfxB p k) = [] := by
      apply List.filter_eq_nil_iff.mpr
      intro a ha
      simp [h a ha]
    rw [deleteBatches, hfil]
    rfl
  · intro hcon
    exact deleteAcc_ne_nil _ _ [] hcon rfl

/-- Claim C10 witness: a bucket with one key outside the area. -/
theorem c10_witness : deleteBatches ["alpha/x"] "beta/" = [] :=
  (c10_delete_noop ["alpha/x"] "beta/").1 (by decide)

/-- Claim C5: in overwrite mode the handler, after ensuring the
database, issues the bulk deletes of every key under the table's storage
area (each batch at most 1000 keys and never empty), then the catalog
table drop, then the read and the write, in this order; after the issued
deletes no key under the table's area remains in the bucket. -/
theorem c5_overwrite_reset (env : Env) (ev : Event) (outKeys : List String)
    (tn : String)
    (hd : derive_name_from_key ev.csvUploadKey = Except.ok tn)
    (hm : effLoadMode env ev = "overwrite") :
    handlerRun env ev outKeys =
      ([Effect.ensureDatabase env.glueDatabase]
        ++ (deleteBatches outKeys (tablePfx env tn)).map
            (Effect.deleteObjects ev.outputBucket)
        ++ [Effect.deleteTableIfExists env.glueDatabase tn,
            Effect.readCsv (inputPath ev),
            Effect.writeParquet (datasetRoot env ev tn) env.glueDatabase tn],
       Except.ok ())
    ∧ (∀ b ∈ deleteBatches outKeys (tablePfx env tn), b.length ≤ 1000 ∧ b ≠ [])
    ∧ (∀ k ∈ runDeletes outKeys (deleteBatches outKeys (tablePfx env tn)),
        strHasPfxB (tablePfx env tn) k = false) := by
  refine ⟨?_, ?_, ?_⟩
  · simp [handlerRun, hd, hm]
  · intro b hb
    exact ⟨deleteAcc_sizes _ _ (by simp) b hb, deleteAcc_ne_nil _ _ b hb⟩
  · exact runDeletes_clears outKeys (tablePfx env tn)

/-- Claim C5 witness: a concrete overwrite invocation; the two keys
under `data/sales/` are deleted in one batch before the catalog drop and
the write, the unrelated key is untouched. -/
theorem c5_witness :
    handlerRun env1 ev1 keys1 =
      ([Effect.ensureDatabase "gdb",
        Effect.deleteObjects "out" ["data/sales/p1", "data/sales/p2"],
        Effect.deleteTableIfExists "gdb" "sales",
        Effect.readCsv "s3://in/Sales_2024.csv",
        Effect.writeParquet "s3://out/data/sales/" "gdb" "sales"],
       Except.ok ()) := by
  have h := (c5_overwrite_reset env1 ev1 keys1 "sales" (by decide) (by decide)).1
  rw [h]
  decide

/-- Claim C3 counterexample: with the unrecognized load mode `append`
the handler does fail with the load-mode configuration error, but the
catalog database has already been ensured when it fails — the list of
effects issued before the error is not empty, it contains the
ensure-database call, contradicting `surfaced before any I/O`. -/
theorem c3_counterexample :
    (handlerRun env0 ev0 []).1 = [Effect.ensureDatabase "db"]
    ∧ (handlerRun env0 ev0 []).2 = Except.error PipeErr.badLoadMode
    ∧ (handlerRun env0 ev0 []).1 ≠ [] := by decide

/-- Claim C3 amended: for every invocation whose derived table name is
valid and whose lowercased load mode is neither `incremental` nor
`overwrite`, the handler fails with the load-mode configuration error
before any storage read, delete or write — but after the catalog
database has been ensured, which is the only effect issued. -/
theorem c3_amended_loadmode (env : Env) (ev : Event) (outKeys : List String)
    (tn : String)
    (hd : derive_name_from_key ev.csvUploadKey = Except.ok tn)
    (h1 : effLoadMode env ev ≠ "overwrite")
    (h2 : effLoadMode env ev ≠ "incremental") :
    handlerRun env ev outKeys =
      ([Effect.ensureDatabase env.glueDatabase], Except.error PipeErr.badLoadMode) := by
  simp [handlerRun, hd, h1, h2]

/-- Claim C3 amended witness: the `append` invocation. -/
theorem c3_amended_witness :
    handlerRun env0 ev0 [] =
      ([Effect.ensureDatabase "db"], Except.error PipeErr.badLoadMode) :=
  c3_amended_loadmode env0 ev0 [] "t" (by decide) (by decide) (by decide)

/-- Claim C2 counterexample: no configuration toggle exists, and a text
column of boolean tokens is promoted to boolean by the handler transform
on every invocation; the written table does not keep generic text
columns. -/
theorem c2_counterexample :
    pipelineTransform c2df "20250101" =
      ⟨[("flag", ColData.boolCol [some true, some false]),
        ("extraction_timestamp",
          ColData.str [some "20250101", some "20250101"])]⟩ := by decide

/-- Claim C2 amended: the handler applies the type stabilization pass
unconditionally — the source has no `ALLOW_TYPE_CONVERSION` input at
all, so for every decoded frame the written table is the stabilized
frame (plus the partition column), under every configuration. -/
theorem c2_amended_unconditional (df : DataFrame) (ts : String) :
    pipelineTransform df ts =
      addPartitionCol
        ⟨(dedupDf (cleanDf df)).cols.map (fun nc => (nc.1, stabCol nc.2))⟩ ts := rfl

/-- Claim C1 evidence: the sanitization pass does preserve column count
and order, but its output names are not always unique — the header `b!`
sanitizes to `b`, is suffixed to `b_1`, and collides with the raw header
`b_1` — and a header with no alphanumeric character sanitizes to the
empty name, violating the ColumnName invariant. -/
theorem c1_dedup_collision :
    ((dedupDf (cleanDf c1df)).cols.map (fun nc => nc.1) = ["b", "b_1", "b_1"])
    ∧ ¬ ((dedupDf (cleanDf c1df)).cols.map (fun nc => nc.1)).Nodup
    ∧ dedupNames ["!"] = [""] := by decide

/-- Claim C4 counterexample: a run of two hyphens becomes two
underscores, not one, and a header sanitizing to the empty string stays
empty — no `col` placeholder is substituted. -/
theorem c4_counterexample :
    sanitizeBase "a--b" = "a__b" ∧ sanitizeBase "a--b" ≠ "a_b"
    ∧ sanitizeBase "!" = "" ∧ sanitizeBase "!" ≠ "col" := by decide

/-- Claim C4 amended: header sanitization replaces each character
outside ASCII letters, digits and underscore with one underscore (one
underscore per character, so runs become several underscores), lowercases
the result and strips leading and trailing underscores; an empty result
is left empty. -/
theorem c4_sanitize_amended (s : String) :
    sanitizeBase s =
      ⟨stripUnders (s.data.map
        (fun c => if c.isAlphanum || c = '_' then c.toLower else '_'))⟩ := by
  have hmap : (s.data.map subChar).map Char.toLower =
      s.data.map (fun c => if c.isAlphanum || c = '_' then c.toLower else '_') := by
    rw [List.map_map]
    apply List.map_congr_left
    intro c _
    by_cases h : (c.isAlphanum || c = '_') = true
    · simp only [Function.comp_apply, subChar, if_pos h]
    · simp only [Function.comp_apply, subChar, if_neg h]
      decide
  unfold sanitizeBase
  rw [hmap]

theorem takeWhile_of_no_underscore (l : List Char) (h : ¬ '_' ∈ l) :
    l.takeWhile (fun c => decide (c ≠ '_')) = l := by
  induction l with
  | nil => rfl
  | cons c t ih =>
    rw [List.mem_cons, not_or] at h
    have hc : (decide (c ≠ '_')) = true := by
      apply decide_eq_true
      exact fun hEq => h.1 hEq.symm
    simp only [List.takeWhile_cons, hc, if_true]
    rw [ih h.2]

/-- Claim C6: table-name derivation fails exactly when the extension is
not `.csv` case-insensitively, or the part of the extension-stripped
filename before the first underscore is empty, or that part does not
match the anchored name pattern; otherwise it returns that part
lowercased and truncated to 255 characters, and with no underscore
present the part is the whole extension-stripped filename. -/
theorem c6_derive_name (key : String) :
    ((∃ e, derive_name_from_key key = Except.error e) ↔
      (toLowerStr (deriveExt key) ≠ ".csv" ∨ deriveBase key = ""
        ∨ matchesNamePattern (deriveBase key) = false))
    ∧ (toLowerStr (deriveExt key) = ".csv" → deriveBase key ≠ "" →
        matchesNamePattern (deriveBase key) = true →
        derive_name_from_key key =
          Except.ok (strTake255 (toLowerStr (deriveBase key))))
    ∧ (¬ '_' ∈ (deriveStem key).data → deriveBase key = deriveStem key) := by
  refine ⟨?_, ?_, ?_⟩
  · by_cases h1 : toLowerStr (deriveExt key) = ".csv"
    · by_cases h2 : deriveBase key = ""
      · simp [derive_name_from_key, h1, h2]
      · cases h3 : matchesNamePattern (deriveBase key)
        · simp [derive_name_from_key, h1, h2, h3]
        · simp [derive_name_from_key, h1, h2, h3]
    · simp [derive_name_from_key, h1]
  · intro h1 h2 h3
    simp [derive_name_from_key, h1, h2, h3]
  · intro h
    unfold deriveBase beforeUnderscore
    rw [takeWhile_of_no_underscore _ h]

/-- Claim C6 witness: the documented example key. -/
theorem c6_witness :
    derive_name_from_key "Asset_20250902103213Z.csv" = Except.ok "asset" := by
  have h := (c6_derive_name "Asset_20250902103213Z.csv").2.1
    (by decide) (by decide) (by decide)
  rw [h]
  decide

theorem truthy_falsy_disjoint : ∀ v ∈ falsyL, v ∉ truthyL := by decide

theorem lowTrim_mem_lowerOf (cells : List (Option String)) (s : String)
    (hs : some s ∈ cells) : lowTrim s ∈ lowerOf cells := by
  have h1 : s ∈ cells.filterMap id := List.mem_filterMap.mpr ⟨some s, hs, rfl⟩
  have h2 : pyStrip s ∈ sampleOf cells := List.mem_map.mpr ⟨s, h1, rfl⟩
  exact List.mem_map.mpr ⟨pyStrip s, h2, rfl⟩

/-- Claim C7: a text column with at least one non-null value whose
distinct lowercased trimmed values are boolean tokens, at most two of
them distinct, is retyped as boolean: truthy tokens map to true, falsy
tokens to false, nulls stay null. -/
theorem c7_bool_promotion (cells : List (Option String))
    (h1 : cells.filterMap id ≠ [])
    (h2 : ∀ v ∈ lowerOf cells, v ∈ truthyL ∨ v ∈ falsyL)
    (h3 : (lowerOf cells).dedup.length ≤ 2) :
    stabilizeCol cells =
      ColData.boolCol (cells.map (fun c =>
        c.map (fun s => decide (lowTrim s ∈ truthyL)))) := by
  have hne : (cells.filterMap id).isEmpty = false := by
    cases hE : cells.filterMap id with
    | nil => exact absurd hE h1
    | cons a t => rfl
  have hg : boolGuard cells = true := by
    unfold boolGuard
    rw [Bool.and_eq_true]
    constructor
    · rw [List.all_eq_true]
      intro v hv
      rcases h2 v (List.mem_dedup.mp hv) with h | h
      · simp [h]
      · simp [h]
    · exact decide_eq_true h3
  have hcells : cells.map (fun c => c.bind boolTokenMap) =
      cells.map (fun c => c.map (fun s => decide (lowTrim s ∈ truthyL))) := by
    apply List.map_congr_left
    intro c hc
    cases c with
    | none => rfl
    | some s =>
      have hmem := lowTrim_mem_lowerOf cells s hc
      rcases h2 _ hmem with h | h
      · simp [Option.bind, boolTokenMap, h]
      · have hnt := truthy_falsy_disjoint _ h
        simp [Option.bind, boolTokenMap, hnt, h]
  unfold stabilizeCol
  rw [hne, hg, hcells]
  simp

/-- Claim C7 witness: the column of exactly `Yes`, `no`, `YES`. -/
theorem c7_witness :
    stabilizeCol [some "Yes", some "no", some "YES"] =
      ColData.boolCol [some true, some false, some true] := by
  have h := c7_bool_promotion [some "Yes", some "no", some "YES"]
    (by decide) (by decide) (by decide)
  rw [h]
  decide

theorem colLen_stabilizeCol (cells : List (Option String)) :
    colLen (stabilizeCol cells) = cells.length := by
  unfold stabilizeCol
  repeat' split
  all_goals simp [colLen]

theorem stabCol_stabilizeCol (cells : List (Option String)) :
    stabCol (stabilizeCol cells) = stabilizeCol cells := by
  unfold stabilizeCol
  repeat' split
  all_goals rfl

theorem stabCol_idem (d : ColData) : stabCol (stabCol d) = stabCol d := by
  cases d with
  | obj cs => exact stabCol_stabilizeCol cs
  | str cs => rfl
  | boolCol cs => rfl
  | intCol cs => rfl
  | floatCol cs => rfl
  | dtCol cs => rfl

theorem colLen_stabCol (d : ColData) : colLen (stabCol d) = colLen d := by
  cases d with
  | obj cs => exact colLen_stabilizeCol cs
  | str cs => rfl
  | boolCol cs => rfl
  | intCol cs => rfl
  | floatCol cs => rfl
  | dtCol cs => rfl

/-- Claim C9: type stabilization preserves the column count and every
column's row count, and it is idempotent: a second pass is the identity,
since every column it outputs has left the generic-text dtype. -/
theorem c9_stabilize_shape_idem (df : DataFrame) :
    (stabilize df).cols.length = df.cols.length
    ∧ (stabilize df).cols.map (fun nc => colLen nc.2)
        = df.cols.map (fun nc => colLen nc.2)
    ∧ stabilize (stabilize df) = stabilize df := by
  refine ⟨by simp [stabilize], ?_, ?_⟩
  · unfold stabilize
    rw [List.map_map]
    apply List.map_congr_left
    intro nc _
    exact colLen_stabCol nc.2
  · unfold stabilize
    rw [List.map_map]
    apply congrArg DataFrame.mk
    apply List.map_congr_left
    intro nc _
    simp [Function.comp, stabCol_idem]
